import Mathlib

set_option maxHeartbeats 1000000

/-! Shallow embedding of the device-discovery and firmware-flashing logic of
the CorneZMK operator scripts (scripts/find_devices.py and
scripts/flash_firmware.py).

External effects are modelled as input data: each block device carries the
outcome of its udevadm metadata query (`none` models a CalledProcessError),
the lsusb invocation is an optional list of output lines (`none` models a
CalledProcessError), and the flash environment records which external commands
(mount, cp, umount) would succeed. -/

/-- Python truthiness of an optional string: None and the empty string are
falsy, every other string is truthy. -/
def pyTruthy : Option String → Bool
  | none => false
  | some s => !(s == "")

/-- Python str.lower, as applied to the ASCII hex-id strings involved. -/
def pyLower (s : String) : String :=
  String.mk (s.data.map Char.toLower)

/-- Character class of the regex fragment [\da-fA-F]. -/
def isHexDigitChar (c : Char) : Bool :=
  c.isDigit || ('a' ≤ c && c ≤ 'f') || ('A' ≤ c && c ≤ 'F')

/-- Character class of the regex fragment \w, on the ASCII inputs involved. -/
def isWordChar (c : Char) : Bool :=
  c.isAlphanum || c == '_'

/-- Python str.startswith, as a structural test over the character lists. -/
def strStartsWith (s p : String) : Bool :=
  p.data.isPrefixOf s.data

/-- Substring test on character lists (Python `needle in haystack`). -/
def listContainsSub (needle : List Char) : List Char → Bool
  | [] => needle.isEmpty
  | c :: rest => needle.isPrefixOf (c :: rest) || listContainsSub needle rest

/-- Python `needle in line` on strings. -/
def containsSubStr (needle line : String) : Bool :=
  listContainsSub needle.data line.data

/-- Python str.split for a one-character separator. -/
def splitOnChar (sep : Char) : List Char → List (List Char)
  | [] => [[]]
  | c :: rest =>
    let r := splitOnChar sep rest
    if c == sep then [] :: r
    else
      match r with
      | h :: t => (c :: h) :: t
      | [] => [[c]]

/-- Python str.strip of the double-quote character: drop all leading and all
trailing double quotes. -/
def stripQuotes (cs : List Char) : List Char :=
  ((cs.dropWhile (fun c => c == '"')).reverse.dropWhile (fun c => c == '"')).reverse

/-- Model of Python line.split on the equals sign, taking element 1 and
stripping double quotes, as done by the per-line parsers of
find_devices.py main and flash_firmware.py verify_device. -/
def splitEqStrip (line : String) : String :=
  String.mk (stripQuotes ((splitOnChar '=' line.data).getD 1 []))

/-- Attempt to match the regex `=([0-9a-fA-F]+)` anchored at the head of the
character list, returning the captured hex run. -/
def hexCaptureAt (cs : List Char) : Option String :=
  match cs with
  | '=' :: rest =>
    let h := rest.takeWhile isHexDigitChar
    if h.isEmpty then none else some (String.mk h)
  | _ => none

/-- Model of re.search for the pattern `=([0-9a-fA-F]+)`: leftmost match wins,
the capture is the maximal hex run after the equals sign. -/
def searchEqHex : List Char → Option String
  | [] => none
  | c :: rest =>
    match hexCaptureAt (c :: rest) with
    | some s => some s
    | none => searchEqHex rest

/-- Attempt to match the regex `="([0-9a-fA-F]+)"` (with literal double
quotes) anchored at the head of the character list. -/
def quotedHexCaptureAt (cs : List Char) : Option String :=
  match cs with
  | '=' :: '"' :: rest =>
    let h := rest.takeWhile isHexDigitChar
    if h.isEmpty then none
    else
      match rest.drop h.length with
      | '"' :: _ => some (String.mk h)
      | _ => none
  | _ => none

/-- Model of re.search for the pattern `="([0-9a-fA-F]+)"` used by
check_bootloader_device. -/
def searchEqQuotedHex : List Char → Option String
  | [] => none
  | c :: rest =>
    match quotedHexCaptureAt (c :: rest) with
    | some s => some s
    | none => searchEqQuotedHex rest

/-- Attempt to match the regex `="([0-9]+)"` anchored at the head of the
character list. -/
def quotedDigitsCaptureAt (cs : List Char) : Option String :=
  match cs with
  | '=' :: '"' :: rest =>
    let h := rest.takeWhile Char.isDigit
    if h.isEmpty then none
    else
      match rest.drop h.length with
      | '"' :: _ => some (String.mk h)
      | _ => none
  | _ => none

/-- Model of re.search for the pattern `="([0-9]+)"` used for the
removable attribute by find_matching_devices. -/
def searchEqQuotedDigits : List Char → Option String
  | [] => none
  | c :: rest =>
    match quotedDigitsCaptureAt (c :: rest) with
    | some s => some s
    | none => searchEqQuotedDigits rest

/-- Attempt to match the regex `ID (\w+):(\w+)` anchored at the head of the
character list, returning the two captured id groups. -/
def lsusbIdCaptureAt (cs : List Char) : Option (String × String) :=
  match cs with
  | 'I' :: 'D' :: ' ' :: rest =>
    let v := rest.takeWhile isWordChar
    if v.isEmpty then none
    else
      match rest.drop v.length with
      | ':' :: rest2 =>
        let p := rest2.takeWhile isWordChar
        if p.isEmpty then none else some (String.mk v, String.mk p)
      | _ => none
  | _ => none

/-- Model of re.search for the lsusb id pattern `ID (\w+):(\w+)`. -/
def searchLsusbId : List Char → Option (String × String)
  | [] => none
  | c :: rest =>
    match lsusbIdCaptureAt (c :: rest) with
    | some r => some r
    | none => searchLsusbId rest

/-- One entry of the devices.conf inventory, as read by the scripts: the
fields are the results of device_info.get with default empty string, so an
absent key is modelled by the empty string. -/
structure DeviceInfo where
  vendor_id : String
  product_id : String
deriving DecidableEq

/-- One /sys/block entry observed during an enumeration pass. `devExists`
models os.path.exists on the corresponding /dev path; `udev` is the output of
`udevadm info --query=all --name /dev/NAME` split into lines, or `none` when
that query raises CalledProcessError. -/
structure BlockDev where
  name : String
  devExists : Bool
  udev : Option (List String)
deriving DecidableEq

/-- Model of Python `any line of the joined output contains the needle`: the
needles involved contain no newline, so substring search over the joined
udevadm output is substring search over some line. -/
def anyLineContains (lines : List String) (needle : String) : Bool :=
  lines.any (fun l => containsSubStr needle l)

/-- Parser state of the block-device loop of find_matching_devices
(find_devices.py lines 146-162). -/
structure P2State where
  vendor_id : Option String
  product_id : Option String
  removable : Bool
deriving DecidableEq

/-- One line of the udevadm parse loop of find_matching_devices
(find_devices.py lines 150-162): on a vendor or model line the hex capture of
`=([0-9a-fA-F]+)` is lowercased and stored (a later line overwrites an earlier
one; a line without a regex match leaves the previous value), and an
ATTR removable line with value "1" sets the removable flag. -/
def p2ParseLine (st : P2State) (line : String) : P2State :=
  if containsSubStr "ID_VENDOR_ID" line || containsSubStr "ID_USB_VENDOR_ID" line then
    match searchEqHex line.data with
    | some v => { st with vendor_id := some (pyLower v) }
    | none => st
  else if containsSubStr "ID_MODEL_ID" line || containsSubStr "ID_USB_MODEL_ID" line then
    match searchEqHex line.data with
    | some p => { st with product_id := some (pyLower p) }
    | none => st
  else if containsSubStr "ATTR\x7bremovable\x7d" line then
    match searchEqQuotedDigits line.data with
    | some d => if d == "1" then { st with removable := true } else st
    | none => st
  else st

/-- Full udevadm parse of the block-device loop of find_matching_devices. -/
def parseP2 (us : List String) : P2State :=
  us.foldl p2ParseLine ⟨none, none, false⟩

/-- Parser state of check_bootloader_device (find_devices.py lines 212-229). -/
structure BootState where
  removable : Bool
  is_usb : Bool
  vendor_id : Option String
  product_id : Option String
deriving DecidableEq

/-- One line of the udevadm parse loop of check_bootloader_device
(find_devices.py lines 217-229): removable requires both the ATTR removable
marker and the quoted value 1 on the same line, the USB-bus flag requires the
literal ID_BUS="usb", and the ids are captured by `="([0-9a-fA-F]+)"`. -/
def bootParseLine (st : BootState) (line : String) : BootState :=
  if containsSubStr "ATTR\x7bremovable\x7d" line && containsSubStr "=\"1\"" line then
    { st with removable := true }
  else if containsSubStr "ID_BUS=\"usb\"" line then
    { st with is_usb := true }
  else if containsSubStr "ID_VENDOR_ID" line || containsSubStr "ID_USB_VENDOR_ID" line then
    match searchEqQuotedHex line.data with
    | some v => { st with vendor_id := some (pyLower v) }
    | none => st
  else if containsSubStr "ID_MODEL_ID" line || containsSubStr "ID_USB_MODEL_ID" line then
    match searchEqQuotedHex line.data with
    | some p => { st with product_id := some (pyLower p) }
    | none => st
  else st

/-- Full udevadm parse of check_bootloader_device. -/
def parseBoot (us : List String) : BootState :=
  us.foldl bootParseLine ⟨false, false, none, none⟩

/-- Model of check_bootloader_device (find_devices.py lines 198-244): the
input is the outcome of the udevadm query on the device path (`none` for
CalledProcessError). Returns the (is_bootloader, vendor_id, product_id)
triple produced by the source. -/
def check_bootloader_device (udev : Option (List String)) :
    Bool × Option String × Option String :=
  match udev with
  | none => (false, none, none)
  | some us =>
    let st := parseBoot us
    let is_bootloader :=
      st.removable && st.is_usb && pyTruthy st.vendor_id && pyTruthy st.product_id
    if is_bootloader then (true, st.vendor_id, st.product_id) else (false, none, none)

/-- The inner inventory loop shared by the matching scans: for each inventory
entry in order, emit (nickname, path) when the entry's lowercased vendor and
product ids equal the device's parsed ids. -/
def cfgMatchList (v p path : String) : List (String × DeviceInfo) → List (String × String)
  | [] => []
  | (nick, info) :: rest =>
    (if pyLower info.vendor_id == v && pyLower info.product_id == p
     then [(nick, path)] else []) ++ cfgMatchList v p path rest

/-- Per-device body of the inner block-device loop of the lsusb phase of
find_matching_devices (find_devices.py lines 92-111): the glob pattern
restricts to /sys/block entries whose name starts with sd; a failed udevadm
query skips the device; (nickname, /dev/NAME) is emitted when the raw udevadm
output contains one of the two vendor-id needles and one of the two model-id
needles for the lsusb ids already matched against the inventory entry. Note
this path checks neither os.path.exists nor the device's parsed ids. -/
def phase1Dev (nick vid pid : String) (b : BlockDev) : List (String × String) :=
  if strStartsWith b.name "sd" then
    match b.udev with
    | none => []
    | some us =>
      if (anyLineContains us ("ID_VENDOR_ID=" ++ vid)
            || anyLineContains us ("ID_USB_VENDOR_ID=" ++ vid))
          && (anyLineContains us ("ID_MODEL_ID=" ++ pid)
            || anyLineContains us ("ID_USB_MODEL_ID=" ++ pid))
      then [(nick, "/dev/" ++ b.name)]
      else []
  else []

/-- Inner block-device loop of the lsusb phase of find_matching_devices, over
the enumerated /sys/block entries in order. -/
def phase1Blocks (nick vid pid : String) : List BlockDev → List (String × String)
  | [] => []
  | b :: bs => phase1Dev nick vid pid b ++ phase1Blocks nick vid pid bs

/-- Inventory loop of the lsusb phase of find_matching_devices
(find_devices.py lines 82-111). -/
def phase1Cfg (vid pid : String) (blocks : List BlockDev) :
    List (String × DeviceInfo) → List (String × String)
  | [] => []
  | (nick, info) :: rest =>
    (if pyLower info.vendor_id == vid && pyLower info.product_id == pid
     then phase1Blocks nick vid pid blocks else []) ++ phase1Cfg vid pid blocks rest

/-- Line loop of the lsusb phase of find_matching_devices (find_devices.py
lines 72-111): each lsusb line whose id pattern matches contributes the
matches of the inventory loop, with both ids lowercased. -/
def phase1Lines (cfg : List (String × DeviceInfo)) (blocks : List BlockDev) :
    List String → List (String × String)
  | [] => []
  | line :: rest =>
    (match searchLsusbId line.data with
     | none => []
     | some (v, p) => phase1Cfg (pyLower v) (pyLower p) blocks cfg)
      ++ phase1Lines cfg blocks rest

/-- The lsusb phase of find_matching_devices (find_devices.py lines 63-114):
a CalledProcessError from lsusb (`none`) makes the whole phase contribute
nothing. -/
def phase1 (cfg : List (String × DeviceInfo)) (lsusb : Option (List String))
    (blocks : List BlockDev) : List (String × String) :=
  match lsusb with
  | none => []
  | some ls => phase1Lines cfg blocks ls

/-- The per-device body of the direct block-device phase of
find_matching_devices (find_devices.py lines 117-189): skip the device when
its /dev path does not exist or does not start with /dev/sd or its udevadm
query fails; parse the output; the removable guard of line 165 is kept as
written even though the /dev/sd guard above makes it vacuous; when both parsed
ids are truthy, run the inventory loop. -/
def phase2Dev (cfg : List (String × DeviceInfo)) (b : BlockDev) :
    List (String × String) :=
  if !b.devExists then []
  else if !(strStartsWith ("/dev/" ++ b.name) "/dev/sd") then []
  else
    match b.udev with
    | none => []
    | some us =>
      let st := parseP2 us
      if !st.removable && !(strStartsWith ("/dev/" ++ b.name) "/dev/sd") then []
      else
        match st.vendor_id, st.product_id with
        | some v, some p =>
          if !(v == "") && !(p == "") then cfgMatchList v p ("/dev/" ++ b.name) cfg
          else []
        | _, _ => []

/-- The direct block-device phase of find_matching_devices (find_devices.py
lines 116-189), over all /sys/block entries in enumeration order. -/
def phase2 (cfg : List (String × DeviceInfo)) : List BlockDev → List (String × String)
  | [] => []
  | b :: bs => phase2Dev cfg b ++ phase2 cfg bs

/-- Model of find_matching_devices (find_devices.py lines 48-196) with
list_all and debug off: the lsusb correlation phase runs first and appends its
matches, then the direct block-device phase appends its matches to the same
list. -/
def find_matching_devices (cfg : List (String × DeviceInfo))
    (lsusb : Option (List String)) (blocks : List BlockDev) :
    List (String × String) :=
  phase1 cfg lsusb blocks ++ phase2 cfg blocks

/-- Parser state of the scan inside find_devices.py main (lines 300-316). -/
structure MState where
  vendor_id : Option String
  product_id : Option String
  description : String
deriving DecidableEq

/-- One line of the udevadm parse loop of find_devices.py main (lines
306-316): the value is element 1 of the split on the equals sign, stripped of
double quotes; id values are lowercased; a later line overwrites an earlier
one. -/
def mainParseLine (st : MState) (line : String) : MState :=
  if containsSubStr "ID_VENDOR_ID=" line then
    { st with vendor_id := some (pyLower (splitEqStrip line)) }
  else if containsSubStr "ID_USB_VENDOR_ID=" line then
    { st with vendor_id := some (pyLower (splitEqStrip line)) }
  else if containsSubStr "ID_MODEL_ID=" line then
    { st with product_id := some (pyLower (splitEqStrip line)) }
  else if containsSubStr "ID_USB_MODEL_ID=" line then
    { st with product_id := some (pyLower (splitEqStrip line)) }
  else if containsSubStr "ID_MODEL=" line then
    { st with description := splitEqStrip line }
  else st

/-- Full udevadm parse of the scan inside find_devices.py main. -/
def parseMain (us : List String) : MState :=
  us.foldl mainParseLine ⟨none, none, "Unknown"⟩

/-- Per-device body of the scan inside find_devices.py main (lines 286-340):
the glob pattern restricts to /sys/block entries whose name starts with sd; a
failed udevadm query skips the device; when both parsed ids are truthy the
inventory loop emits (nickname, /dev/NAME) for every entry whose lowercased
ids equal the parsed ids. -/
def mainScanDev (cfg : List (String × DeviceInfo)) (b : BlockDev) :
    List (String × String) :=
  if strStartsWith b.name "sd" then
    match b.udev with
    | none => []
    | some us =>
      match (parseMain us).vendor_id, (parseMain us).product_id with
      | some v, some p =>
        if !(v == "") && !(p == "") then cfgMatchList v p ("/dev/" ++ b.name) cfg
        else []
      | _, _ => []
  else []

/-- The scan of find_devices.py main (lines 281-341), with list_all and debug
off. -/
def mainScan (cfg : List (String × DeviceInfo)) : List BlockDev → List (String × String)
  | [] => []
  | b :: bs => mainScanDev cfg b ++ mainScan cfg bs

/-- Outcome of load_devices_config (find_devices.py lines 16-46). -/
inductive LoadOutcome where
  | ok (devices : List (String × DeviceInfo))
  | exit1
deriving DecidableEq

/-- Model of load_devices_config: `configFound` is whether any of the three
candidate paths for devices.conf exists; `yamlParsed` is the outcome of
yaml.safe_load on the comment-stripped content, `none` for a YAMLError and
`some none` for a document without a devices key (config.get of devices with
default empty mapping). Either failure calls sys.exit(1). -/
def load_devices_config (configFound : Bool)
    (yamlParsed : Option (Option (List (String × DeviceInfo)))) : LoadOutcome :=
  if !configFound then .exit1
  else
    match yamlParsed with
    | none => .exit1
    | some none => .ok []
    | some (some devs) => .ok devs

/-- Model of find_devices.py main (lines 246-361): exit code together with
the matches the scan accumulates. Configuration load failure exits 1 before
scanning; every other run completes the scan, prints, and returns, which ends
the process with exit code 0 whether or not any device matched. -/
def findDevicesMain (configFound : Bool)
    (yamlParsed : Option (Option (List (String × DeviceInfo))))
    (blocks : List BlockDev) : Nat × List (String × String) :=
  match load_devices_config configFound yamlParsed with
  | .exit1 => (1, [])
  | .ok cfg => (0, mainScan cfg blocks)

/-- Fixed destination filename on the mounted bootloader volume
(flash_firmware.py line 32). -/
def DEFAULT_DESTINATION_FIRMWARE_NAME : String := "CURRENT.UF2"

/-- Default settle time in seconds (flash_firmware.py line 33), the argparse
default of the caller-configurable ready-time option. -/
def DEFAULT_READY_TIME : Nat := 20

/-- Model of os.path.join for two components. -/
def osPathJoin (a b : String) : String :=
  if strStartsWith b "/" then b
  else if a == "" || "/".data.isSuffixOf a.data then a ++ b
  else a ++ "/" ++ b

/-- Which external commands of a flash run would succeed. -/
structure FlashEnv where
  firmwareIsFile : Bool
  mountOk : Bool
  copyOk : Bool
  unmountOk : Bool
deriving DecidableEq

/-- How flash_firmware terminates: the firmware-missing branch of lines
184-187 (prints a not-found error and exits 1), the except branch of lines
213-220 (prints a flash error, attempts a best-effort unmount, and exits 1),
or the normal return True of line 212. -/
inductive FlashResult where
  | firmwareNotFound
  | flashError
  | success
deriving DecidableEq

/-- One externally visible action of flash_firmware, in the order attempted. -/
inductive FlashStep where
  | makeMountPoint (dir : String)
  | mount (dev dir : String)
  | copy (src dest : String)
  | sleep (seconds : Nat)
  | unmount (dir : String)
  | unmountCleanup (dir : String)
deriving DecidableEq

/-- Model of flash_firmware (flash_firmware.py lines 181-220). The returned
trace lists the external actions attempted in order: the missing-firmware
check precedes everything, the mount-point directory is created outside the
try block, and the first failing checked command jumps to the except branch,
which attempts an unchecked cleanup unmount and exits 1. -/
def flash_firmware (env : FlashEnv)
    (device_path firmware_path mount_point destination_name : String)
    (ready_time : Nat) : FlashResult × List FlashStep :=
  if !env.firmwareIsFile then (.firmwareNotFound, [])
  else
    let dest := osPathJoin mount_point destination_name
    if !env.mountOk then
      (.flashError,
        [.makeMountPoint mount_point, .mount device_path mount_point,
         .unmountCleanup mount_point])
    else if !env.copyOk then
      (.flashError,
        [.makeMountPoint mount_point, .mount device_path mount_point,
         .copy firmware_path dest, .unmountCleanup mount_point])
    else if !env.unmountOk then
      (.flashError,
        [.makeMountPoint mount_point, .mount device_path mount_point,
         .copy firmware_path dest, .sleep ready_time, .unmount mount_point,
         .unmountCleanup mount_point])
    else
      (.success,
        [.makeMountPoint mount_point, .mount device_path mount_point,
         .copy firmware_path dest, .sleep ready_time, .unmount mount_point])

/-- Concrete inventory used by the concrete-input theorems. -/
def exCfg : List (String × DeviceInfo) := [("corne", ⟨"1D50", "615E"⟩)]

/-- Concrete udevadm output used by the concrete-input theorems: it carries
matching ids but no removable attribute and no USB bus marker. -/
def exLines : List String := ["E: ID_VENDOR_ID=1d50", "E: ID_MODEL_ID=615e"]

/-- Concrete block device used by the concrete-input theorems. -/
def exBlock : BlockDev := ⟨"sdb", true, some exLines⟩

/-- Second concrete block device, with the same ids on a different path. -/
def exBlock2 : BlockDev := ⟨"sdc", true, some exLines⟩

/-- Concrete lsusb output whose single line carries the same id pair. -/
def exLsusb : List String := ["Bus 001 Device 002: ID 1d50:615e OpenMoko"]

/-- Helper: a string built from a non-empty character list is not the empty
string. -/
theorem string_mk_ne_empty (h : List Char) (hne : h ≠ []) : String.mk h ≠ "" := by
  intro he
  apply hne
  have hd : (String.mk h).data = ("" : String).data := by rw [he]
  simpa using hd

/-- Helper: lowercasing preserves non-emptiness. -/
theorem pyLower_ne_empty (s : String) (h : s ≠ "") : pyLower s ≠ "" := by
  intro he
  apply h
  have hd : (pyLower s).data = ("" : String).data := by rw [he]
  have hm : s.data.map Char.toLower = [] := by simpa [pyLower] using hd
  cases s with
  | mk cs =>
    cases cs with
    | nil => rfl
    | cons c rest => simp at hm

/-- C4: when the firmware image path does not name an existing file, the
flash operation fails with the not-found error before any external action:
neither the mount nor the copy is attempted, whatever the rest of the
environment would have done. -/
theorem flash_missing_firmware_fails_before_mount (m c u : Bool)
    (dev fw mp dn : String) (rt : Nat) :
    flash_firmware ⟨false, m, c, u⟩ dev fw mp dn rt =
      (FlashResult.firmwareNotFound, []) := by
  simp [flash_firmware]

/-- C5: given an existing firmware image and succeeding external commands,
the flash operation performs exactly create-mount-point, mount, copy to the
fixed destination filename at the root of the mounted volume, sleep for the
caller-configurable settle time, and unmount, in this order; the destination
filename constant is CURRENT.UF2 and the settle default is 20 seconds. -/
theorem flash_happy_path_steps (dev fw mp : String) (rt : Nat) :
    flash_firmware ⟨true, true, true, true⟩ dev fw mp
        DEFAULT_DESTINATION_FIRMWARE_NAME rt =
      (FlashResult.success,
        [FlashStep.makeMountPoint mp, FlashStep.mount dev mp,
         FlashStep.copy fw (osPathJoin mp DEFAULT_DESTINATION_FIRMWARE_NAME),
         FlashStep.sleep rt, FlashStep.unmount mp]) ∧
    DEFAULT_DESTINATION_FIRMWARE_NAME = "CURRENT.UF2" ∧
    DEFAULT_READY_TIME = 20 := by
  refine ⟨?_, rfl, rfl⟩
  simp [flash_firmware]

/-- C2 counterexample: with mount and copy succeeding and the final unmount
failing, the flash operation does not succeed: it takes the error branch that
exits with status 1. -/
theorem unmount_failure_not_success :
    (flash_firmware ⟨true, true, true, false⟩ "/dev/sdb" "corne.uf2"
        "/mnt/corne" DEFAULT_DESTINATION_FIRMWARE_NAME DEFAULT_READY_TIME).1 =
      FlashResult.flashError ∧
    FlashResult.flashError ≠ FlashResult.success := by
  exact ⟨rfl, by decide⟩

/-- C2 (amended): when mount and copy succeed but the final unmount fails,
the error is logged, a best-effort cleanup unmount is attempted, and the
operation exits with status 1: the unmount failure makes the whole flash
fail even though the copy completed. -/
theorem unmount_failure_exits_nonzero (dev fw mp dn : String) (rt : Nat) :
    flash_firmware ⟨true, true, true, false⟩ dev fw mp dn rt =
      (FlashResult.flashError,
        [FlashStep.makeMountPoint mp, FlashStep.mount dev mp,
         FlashStep.copy fw (osPathJoin mp dn), FlashStep.sleep rt,
         FlashStep.unmount mp, FlashStep.unmountCleanup mp]) := by
  simp [flash_firmware]

/-- C6: the discovery tool exits 1 when no devices.conf candidate path exists
and when the YAML parse fails, and exits 0 on every run in which the
configuration loads, whatever the scan finds, including no match at all. -/
theorem find_devices_exit_codes (blocks : List BlockDev) :
    (∀ yp, (findDevicesMain false yp blocks).1 = 1) ∧
    (findDevicesMain true none blocks).1 = 1 ∧
    (∀ devs, (findDevicesMain true (some devs) blocks).1 = 0) := by
  refine ⟨fun yp => rfl, rfl, fun devs => ?_⟩
  cases devs <;> rfl

/-- C10: on this concrete input the lsusb correlation phase and the direct
block-device phase of find_matching_devices each append a match for the same
physical device, so the very same (nickname, blockPath) pair occurs twice in
one enumeration pass. -/
theorem two_phase_scan_emits_duplicate_pair :
    find_matching_devices exCfg (some exLsusb) [exBlock] =
      [("corne", "/dev/sdb"), ("corne", "/dev/sdb")] ∧
    (find_matching_devices exCfg (some exLsusb) [exBlock]).count
      ("corne", "/dev/sdb") = 2 := by
  exact ⟨by decide, by decide⟩

/-- C1 counterexample: this device's metadata carries matching ids but no
removable attribute and no USB-bus marker, so the bootloader heuristic
classifies it as not a bootloader, yet both the matching scan of main and
find_matching_devices emit the pair for it: emission does not require the
heuristic to pass. -/
theorem match_emitted_without_bootloader_heuristic :
    ("corne", "/dev/sdb") ∈ mainScan exCfg [exBlock] ∧
    ("corne", "/dev/sdb") ∈ find_matching_devices exCfg none [exBlock] ∧
    (check_bootloader_device (some exLines)).1 = false ∧
    (parseBoot exLines).removable = false ∧
    (parseBoot exLines).is_usb = false := by
  exact ⟨by decide, by decide, by decide, by decide, by decide⟩

/-- Helper: a successful quoted-hex capture is non-empty. -/
theorem quotedHexCaptureAt_ne_empty (cs : List Char) (s : String)
    (h : quotedHexCaptureAt cs = some s) : s ≠ "" := by
  unfold quotedHexCaptureAt at h
  split at h
  · rename_i rest
    by_cases he : (rest.takeWhile isHexDigitChar).isEmpty = true
    · simp [he] at h
    · rw [if_neg he] at h
      split at h
      · have hs := Option.some.inj h
        subst hs
        exact string_mk_ne_empty _ (by simpa using he)
      · exact absurd h (by simp)
  · exact absurd h (by simp)

/-- Helper: a successful quoted-hex search is non-empty. -/
theorem searchEqQuotedHex_ne_empty (cs : List Char) (s : String)
    (h : searchEqQuotedHex cs = some s) : s ≠ "" := by
  induction cs with
  | nil => simp [searchEqQuotedHex] at h
  | cons c rest ih =>
    unfold searchEqQuotedHex at h
    cases hc : quotedHexCaptureAt (c :: rest) with
    | some t =>
      rw [hc] at h
      have ht := Option.some.inj h
      subst ht
      exact quotedHexCaptureAt_ne_empty _ _ hc
    | none =>
      rw [hc] at h
      exact ih h

/-- Helper: how one parse step of check_bootloader_device can change the
vendor id. -/
theorem bootParseLine_vendor_cases (st : BootState) (l : String) :
    (bootParseLine st l).vendor_id = st.vendor_id ∨
    ∃ v, searchEqQuotedHex l.data = some v ∧
      (bootParseLine st l).vendor_id = some (pyLower v) := by
  unfold bootParseLine
  split
  · left; rfl
  split
  · left; rfl
  split
  · cases hsv : searchEqQuotedHex l.data with
    | some v => right; exact ⟨v, rfl, rfl⟩
    | none => left; rfl
  split
  · cases hsp : searchEqQuotedHex l.data with
    | some p => left; rfl
    | none => left; rfl
  · left; rfl

/-- Helper: how one parse step of check_bootloader_device can change the
product id. -/
theorem bootParseLine_product_cases (st : BootState) (l : String) :
    (bootParseLine st l).product_id = st.product_id ∨
    ∃ p, searchEqQuotedHex l.data = some p ∧
      (bootParseLine st l).product_id = some (pyLower p) := by
  unfold bootParseLine
  split
  · left; rfl
  split
  · left; rfl
  split
  · cases hsv : searchEqQuotedHex l.data with
    | some v => left; rfl
    | none => left; rfl
  split
  · cases hsp : searchEqQuotedHex l.data with
    | some p => right; exact ⟨p, rfl, rfl⟩
    | none => left; rfl
  · left; rfl

/-- Helper: the parsed ids of check_bootloader_device are never the empty
string. -/
theorem parseBoot_ids_ne_empty (us : List String) :
    (∀ s, (parseBoot us).vendor_id = some s → s ≠ "") ∧
    (∀ s, (parseBoot us).product_id = some s → s ≠ "") := by
  suffices h : ∀ st : BootState,
      (∀ s, st.vendor_id = some s → s ≠ "") →
      (∀ s, st.product_id = some s → s ≠ "") →
      ((∀ s, (us.foldl bootParseLine st).vendor_id = some s → s ≠ "") ∧
       (∀ s, (us.foldl bootParseLine st).product_id = some s → s ≠ "")) by
    exact h ⟨false, false, none, none⟩ (by simp) (by simp)
  induction us with
  | nil => intro st hv hp; exact ⟨hv, hp⟩
  | cons l rest ih =>
    intro st hv hp
    refine ih (bootParseLine st l) ?_ ?_
    · intro s hs
      rcases bootParseLine_vendor_cases st l with hsame | ⟨v, hget, hset⟩
      · exact hv s (hsame ▸ hs)
      · rw [hset] at hs
        have := Option.some.inj hs
        subst this
        exact pyLower_ne_empty v (searchEqQuotedHex_ne_empty _ _ hget)
    · intro s hs
      rcases bootParseLine_product_cases st l with hsame | ⟨p, hget, hset⟩
      · exact hp s (hsame ▸ hs)
      · rw [hset] at hs
        have := Option.some.inj hs
        subst this
        exact pyLower_ne_empty p (searchEqQuotedHex_ne_empty _ _ hget)

/-- Helper: Python truthiness coincides with presence for optional strings
that are never empty. -/
theorem pyTruthy_eq_isSome (o : Option String)
    (h : ∀ s, o = some s → s ≠ "") : pyTruthy o = o.isSome := by
  cases o with
  | none => rfl
  | some s =>
    simp only [pyTruthy, Option.isSome_some]
    simpa using h s rfl

/-- C3: the bootloader-candidate classification returns true exactly when the
parsed metadata shows the device removable, on the USB bus, with a vendor id
present and a product id present; a failed metadata query classifies as
false. -/
theorem check_bootloader_device_iff_four_signals (us : List String) :
    ((check_bootloader_device (some us)).1 = true ↔
      ((parseBoot us).removable = true ∧ (parseBoot us).is_usb = true ∧
        (parseBoot us).vendor_id ≠ none ∧ (parseBoot us).product_id ≠ none)) ∧
    (check_bootloader_device none).1 = false := by
  refine ⟨?_, rfl⟩
  have hv := (parseBoot_ids_ne_empty us).1
  have hp := (parseBoot_ids_ne_empty us).2
  simp only [check_bootloader_device]
  rw [pyTruthy_eq_isSome _ hv, pyTruthy_eq_isSome _ hp]
  by_cases hcond : ((parseBoot us).removable && (parseBoot us).is_usb &&
      (parseBoot us).vendor_id.isSome && (parseBoot us).product_id.isSome) = true
  · simp only [hcond, if_true]
    simp only [Bool.and_eq_true, Option.isSome_iff_ne_none] at hcond
    simp only [true_iff]
    tauto
  · rw [if_neg hcond]
    simp only [Bool.and_eq_true, Option.isSome_iff_ne_none] at hcond
    simp only [false_iff]
    tauto

/-- Helper: the inventory loop is the filter of the inventory on id equality,
mapped to (nickname, path). -/
theorem cfgMatchList_eq (v p path : String) (cfg : List (String × DeviceInfo)) :
    cfgMatchList v p path cfg =
      (cfg.filter (fun e =>
        pyLower e.2.vendor_id == v && pyLower e.2.product_id == p)).map
        (fun e => (e.1, path)) := by
  induction cfg with
  | nil => rfl
  | cons e tl ih =>
    obtain ⟨n0, i0⟩ := e
    by_cases h : (pyLower i0.vendor_id == v && pyLower i0.product_id == p) = true
    · simp [cfgMatchList, List.filter_cons, h, ih]
    · simp [cfgMatchList, List.filter_cons, h, ih]

/-- Helper: membership characterization of the inventory loop shared by the
scans. -/
theorem mem_cfgMatchList (v p path n q : String)
    (cfg : List (String × DeviceInfo)) :
    ((n, q) ∈ cfgMatchList v p path cfg) ↔
      (q = path ∧ ∃ i, (n, i) ∈ cfg ∧
        pyLower i.vendor_id = v ∧ pyLower i.product_id = p) := by
  rw [cfgMatchList_eq]
  simp only [List.mem_map, List.mem_filter, Bool.and_eq_true, beq_iff_eq,
    Prod.exists, Prod.mk.injEq]
  constructor
  · rintro ⟨a, b, ⟨hab, hbv, hbp⟩, ha, hq⟩
    exact ⟨hq.symm, b, ha ▸ hab, hbv, hbp⟩
  · rintro ⟨hq, i, hi, hiv, hip⟩
    exact ⟨n, i, ⟨hi, hiv, hip⟩, rfl, hq.symm⟩

/-- Helper: membership characterization of the per-device body of the scan of
find_devices.py main. -/
theorem mem_mainScanDev (cfg : List (String × DeviceInfo)) (b : BlockDev)
    (n q : String) :
    ((n, q) ∈ mainScanDev cfg b) ↔
      (strStartsWith b.name "sd" = true ∧
        ∃ us, b.udev = some us ∧
          ∃ v p, (parseMain us).vendor_id = some v ∧
            (parseMain us).product_id = some p ∧ v ≠ "" ∧ p ≠ "" ∧
            q = "/dev/" ++ b.name ∧
            ∃ i, (n, i) ∈ cfg ∧ pyLower i.vendor_id = v ∧
              pyLower i.product_id = p) := by
  by_cases hsd : strStartsWith b.name "sd" = true
  · cases hu : b.udev with
    | none => simp [mainScanDev, hsd, hu]
    | some us =>
      cases hv : (parseMain us).vendor_id with
      | none => simp [mainScanDev, hsd, hu, hv]
      | some v =>
        cases hp2 : (parseMain us).product_id with
        | none => simp [mainScanDev, hsd, hu, hv, hp2]
        | some p =>
          by_cases hvp : (!(v == "") && !(p == "")) = true
          · have hvne : v ≠ "" := by
              intro h
              subst h
              simp at hvp
            have hpne : p ≠ "" := by
              intro h
              subst h
              simp at hvp
            simp [mainScanDev, hsd, hu, hv, hp2, hvp, mem_cfgMatchList,
              hvne, hpne]
          · have hor : v = "" ∨ p = "" := by
              by_contra hc
              push_neg at hc
              refine hvp ?_
              simp [hc.1, hc.2]
            have hnil : mainScanDev cfg b = [] := by
              simp [mainScanDev, hsd, hu, hv, hp2, hvp]
            rcases hor with h | h <;> subst h <;> simp [hnil, hu, hv, hp2]
  · simp [mainScanDev, hsd]

/-- Helper: membership in the scan of find_devices.py main is membership in
some per-device body. -/
theorem mem_mainScan (cfg : List (String × DeviceInfo)) (blocks : List BlockDev)
    (n q : String) :
    ((n, q) ∈ mainScan cfg blocks) ↔
      ∃ b ∈ blocks, (n, q) ∈ mainScanDev cfg b := by
  induction blocks with
  | nil => simp [mainScan]
  | cons b bs ih => simp [mainScan, ih]

/-- Helper: membership characterization of the per-device body of the direct
block-device phase of find_matching_devices. -/
theorem mem_phase2Dev (cfg : List (String × DeviceInfo)) (b : BlockDev)
    (n q : String) :
    ((n, q) ∈ phase2Dev cfg b) ↔
      (b.devExists = true ∧
        strStartsWith ("/dev/" ++ b.name) "/dev/sd" = true ∧
        ∃ us, b.udev = some us ∧
          ∃ v p, (parseP2 us).vendor_id = some v ∧
            (parseP2 us).product_id = some p ∧ v ≠ "" ∧ p ≠ "" ∧
            q = "/dev/" ++ b.name ∧
            ∃ i, (n, i) ∈ cfg ∧ pyLower i.vendor_id = v ∧
              pyLower i.product_id = p) := by
  by_cases hde : b.devExists = true
  · by_cases hsd : strStartsWith ("/dev/" ++ b.name) "/dev/sd" = true
    · cases hu : b.udev with
      | none => simp [phase2Dev, hde, hsd, hu]
      | some us =>
        cases hv : (parseP2 us).vendor_id with
        | none => simp [phase2Dev, hde, hsd, hu, hv]
        | some v =>
          cases hp2 : (parseP2 us).product_id with
          | none => simp [phase2Dev, hde, hsd, hu, hv, hp2]
          | some p =>
            by_cases hvp : (!(v == "") && !(p == "")) = true
            · have hvne : v ≠ "" := by
                intro h
                subst h
                simp at hvp
              have hpne : p ≠ "" := by
                intro h
                subst h
                simp at hvp
              simp [phase2Dev, hde, hsd, hu, hv, hp2, hvp, mem_cfgMatchList,
                hvne, hpne]
            · have hor : v = "" ∨ p = "" := by
                by_contra hc
                push_neg at hc
                refine hvp ?_
                simp [hc.1, hc.2]
              have hnil : phase2Dev cfg b = [] := by
                simp [phase2Dev, hde, hsd, hu, hv, hp2, hvp]
              rcases hor with h | h <;> subst h <;> simp [hnil, hu, hv, hp2]
    · simp [phase2Dev, hde, hsd]
  · simp [phase2Dev, hde]

/-- Helper: membership in the direct block-device phase is membership in some
per-device body. -/
theorem mem_phase2 (cfg : List (String × DeviceInfo)) (blocks : List BlockDev)
    (n q : String) :
    ((n, q) ∈ phase2 cfg blocks) ↔
      ∃ b ∈ blocks, (n, q) ∈ phase2Dev cfg b := by
  induction blocks with
  | nil => simp [phase2]
  | cons b bs ih => simp [phase2, ih]

/-- Helper: with lsusb unavailable, find_matching_devices is exactly its
direct block-device phase. -/
theorem find_matching_devices_none (cfg : List (String × DeviceInfo))
    (blocks : List BlockDev) :
    find_matching_devices cfg none blocks = phase2 cfg blocks := rfl

/-- Helper: appending distinct suffixes to the same prefix yields distinct
strings. -/
theorem string_append_ne_of_ne (a b c : String) (h : b ≠ c) :
    a ++ b ≠ a ++ c := by
  intro he
  apply h
  have hd := String.ext_iff.mp he
  rw [String.data_append, String.data_append] at hd
  exact String.ext (List.append_cancel_left hd)

/-- Helper: membership characterization of the per-device body of the inner
block-device loop of the lsusb phase. -/
theorem mem_phase1Dev (nick vid pid n q : String) (b : BlockDev) :
    ((n, q) ∈ phase1Dev nick vid pid b) ↔
      (n = nick ∧ strStartsWith b.name "sd" = true ∧
        q = "/dev/" ++ b.name ∧
        ∃ us, b.udev = some us ∧
          ((anyLineContains us ("ID_VENDOR_ID=" ++ vid) = true ∨
            anyLineContains us ("ID_USB_VENDOR_ID=" ++ vid) = true) ∧
           (anyLineContains us ("ID_MODEL_ID=" ++ pid) = true ∨
            anyLineContains us ("ID_USB_MODEL_ID=" ++ pid) = true))) := by
  by_cases hsd : strStartsWith b.name "sd" = true
  · cases hu : b.udev with
    | none => simp [phase1Dev, hsd, hu]
    | some us =>
      by_cases hcond : ((anyLineContains us ("ID_VENDOR_ID=" ++ vid)
            || anyLineContains us ("ID_USB_VENDOR_ID=" ++ vid))
          && (anyLineContains us ("ID_MODEL_ID=" ++ pid)
            || anyLineContains us ("ID_USB_MODEL_ID=" ++ pid))) = true
      · have hc : (anyLineContains us ("ID_VENDOR_ID=" ++ vid) = true ∨
              anyLineContains us ("ID_USB_VENDOR_ID=" ++ vid) = true) ∧
            (anyLineContains us ("ID_MODEL_ID=" ++ pid) = true ∨
              anyLineContains us ("ID_USB_MODEL_ID=" ++ pid) = true) := by
          simpa [Bool.and_eq_true, Bool.or_eq_true] using hcond
        simp [phase1Dev, hsd, hu, hcond, hc.1, hc.2]
      · have hc : ¬((anyLineContains us ("ID_VENDOR_ID=" ++ vid) = true ∨
              anyLineContains us ("ID_USB_VENDOR_ID=" ++ vid) = true) ∧
            (anyLineContains us ("ID_MODEL_ID=" ++ pid) = true ∨
              anyLineContains us ("ID_USB_MODEL_ID=" ++ pid) = true)) := by
          intro hx
          exact hcond (by simpa [Bool.and_eq_true, Bool.or_eq_true] using hx)
        simp [phase1Dev, hsd, hu, hcond, hc]
  · simp [phase1Dev, hsd]

/-- Helper: membership in the inner block-device loop of the lsusb phase is
membership in some per-device body. -/
theorem mem_phase1Blocks (nick vid pid n q : String) (blocks : List BlockDev) :
    ((n, q) ∈ phase1Blocks nick vid pid blocks) ↔
      ∃ b ∈ blocks, (n, q) ∈ phase1Dev nick vid pid b := by
  induction blocks with
  | nil => simp [phase1Blocks]
  | cons b bs ih => simp [phase1Blocks, ih]

/-- Helper: membership characterization of the inventory loop of the lsusb
phase. -/
theorem mem_phase1Cfg (vid pid n q : String) (blocks : List BlockDev)
    (cfg : List (String × DeviceInfo)) :
    ((n, q) ∈ phase1Cfg vid pid blocks cfg) ↔
      ((∃ i, (n, i) ∈ cfg ∧ pyLower i.vendor_id = vid ∧
          pyLower i.product_id = pid) ∧
        (n, q) ∈ phase1Blocks n vid pid blocks) := by
  induction cfg with
  | nil => simp [phase1Cfg]
  | cons e tl ih =>
    obtain ⟨n0, i0⟩ := e
    by_cases hids : (pyLower i0.vendor_id == vid
        && pyLower i0.product_id == pid) = true
    · simp only [phase1Cfg]
      rw [if_pos hids]
      simp only [List.mem_append, ih, List.mem_cons, Prod.mk.injEq]
      have hid2 : pyLower i0.vendor_id = vid ∧ pyLower i0.product_id = pid := by
        simpa [Bool.and_eq_true] using hids
      constructor
      · rintro (hmem | ⟨⟨i, hi, hiv, hip⟩, hblocks⟩)
        · obtain ⟨b1, hb1, hdev⟩ :=
            (mem_phase1Blocks n0 vid pid n q blocks).mp hmem
          have hn : n = n0 :=
            ((mem_phase1Dev n0 vid pid n q b1).mp hdev).1
          subst hn
          exact ⟨⟨i0, Or.inl ⟨rfl, rfl⟩, hid2.1, hid2.2⟩, hmem⟩
        · exact ⟨⟨i, Or.inr hi, hiv, hip⟩, hblocks⟩
      · rintro ⟨⟨i, (⟨hn, hieq⟩ | hi), hiv, hip⟩, hblocks⟩
        · subst hn
          exact Or.inl hblocks
        · exact Or.inr ⟨⟨i, hi, hiv, hip⟩, hblocks⟩
    · simp only [phase1Cfg]
      rw [if_neg hids]
      simp only [List.nil_append, ih, List.mem_cons, Prod.mk.injEq]
      constructor
      · rintro ⟨⟨i, hi, hiv, hip⟩, hblocks⟩
        exact ⟨⟨i, Or.inr hi, hiv, hip⟩, hblocks⟩
      · rintro ⟨⟨i, (⟨hn, hieq⟩ | hi), hiv, hip⟩, hblocks⟩
        · subst hieq
          exact absurd (by simp [hiv, hip]) hids
        · exact ⟨⟨i, hi, hiv, hip⟩, hblocks⟩

/-- Helper: membership characterization of the line loop of the lsusb
phase. -/
theorem mem_phase1Lines (cfg : List (String × DeviceInfo))
    (blocks : List BlockDev) (ls : List String) (n q : String) :
    ((n, q) ∈ phase1Lines cfg blocks ls) ↔
      ∃ line ∈ ls, ∃ v p, searchLsusbId line.data = some (v, p) ∧
        (n, q) ∈ phase1Cfg (pyLower v) (pyLower p) blocks cfg := by
  induction ls with
  | nil => simp [phase1Lines]
  | cons l rest ih =>
    cases hs : searchLsusbId l.data with
    | none => simp [phase1Lines, hs, ih]
    | some vp =>
      obtain ⟨v, p⟩ := vp
      simp only [phase1Lines, hs, List.mem_append, ih, List.mem_cons]
      constructor
      · rintro (hmem | ⟨line, hline, hrest⟩)
        · exact ⟨l, Or.inl rfl, v, p, hs, hmem⟩
        · exact ⟨line, Or.inr hline, hrest⟩
      · rintro ⟨line, (rfl | hline), v1, p1, hs1, hmem⟩
        · rw [hs] at hs1
          injection hs1 with h1
          injection h1 with h2 h3
          subst h2
          subst h3
          exact Or.inl hmem
        · exact Or.inr ⟨line, hline, v1, p1, hs1, hmem⟩

/-- C1 (amended): the device-matching scan emits (nickname(E), blockPath(D))
iff the id-based conditions of one of its code paths hold; the removable and
USB-bus signals of the bootloader heuristic are never consulted on any path.
The first conjunct characterizes the scan of the tool's entry point: emission
iff the descriptor is an sd-named block device whose metadata query succeeded
with both ids parsed as non-empty strings and those lowercased ids equal the
lowercased ids of the inventory entry. The second conjunct characterizes
find_matching_devices for every lsusb outcome as the disjunction of its two
phases: either some lsusb line's id pair equals the entry's lowercased ids
and an sd-named device's raw metadata contains one vendor-id needle and one
model-id needle for that pair as substrings (a path that checks neither that
the /dev path exists nor the device's own parsed ids), or the direct phase's
conditions hold: the device exists, is sd-named, and its metadata parsed to
non-empty ids equal to the entry's lowercased ids. -/
theorem scan_match_iff_id_equality :
    (∀ (cfg : List (String × DeviceInfo)) (blocks : List BlockDev) (n q : String),
      ((n, q) ∈ mainScan cfg blocks) ↔
        ∃ b ∈ blocks, strStartsWith b.name "sd" = true ∧
          ∃ us, b.udev = some us ∧
            ∃ v p, (parseMain us).vendor_id = some v ∧
              (parseMain us).product_id = some p ∧ v ≠ "" ∧ p ≠ "" ∧
              q = "/dev/" ++ b.name ∧
              ∃ i, (n, i) ∈ cfg ∧ pyLower i.vendor_id = v ∧
                pyLower i.product_id = p) ∧
    (∀ (cfg : List (String × DeviceInfo)) (lsusb : Option (List String))
        (blocks : List BlockDev) (n q : String),
      ((n, q) ∈ find_matching_devices cfg lsusb blocks) ↔
        ((∃ ls, lsusb = some ls ∧ ∃ line ∈ ls,
            ∃ v p, searchLsusbId line.data = some (v, p) ∧
              ((∃ i, (n, i) ∈ cfg ∧ pyLower i.vendor_id = pyLower v ∧
                  pyLower i.product_id = pyLower p) ∧
                ∃ b ∈ blocks, strStartsWith b.name "sd" = true ∧
                  q = "/dev/" ++ b.name ∧
                  ∃ us, b.udev = some us ∧
                    ((anyLineContains us ("ID_VENDOR_ID=" ++ pyLower v) = true ∨
                      anyLineContains us ("ID_USB_VENDOR_ID=" ++ pyLower v) = true) ∧
                     (anyLineContains us ("ID_MODEL_ID=" ++ pyLower p) = true ∨
                      anyLineContains us ("ID_USB_MODEL_ID=" ++ pyLower p) = true))))
         ∨ (∃ b ∈ blocks, b.devExists = true ∧
              strStartsWith ("/dev/" ++ b.name) "/dev/sd" = true ∧
              ∃ us, b.udev = some us ∧
                ∃ v p, (parseP2 us).vendor_id = some v ∧
                  (parseP2 us).product_id = some p ∧ v ≠ "" ∧ p ≠ "" ∧
                  q = "/dev/" ++ b.name ∧
                  ∃ i, (n, i) ∈ cfg ∧ pyLower i.vendor_id = v ∧
                    pyLower i.product_id = p))) := by
  constructor
  · intro cfg blocks n q
    rw [mem_mainScan]
    constructor
    · rintro ⟨b, hb, hmem⟩
      exact ⟨b, hb, (mem_mainScanDev cfg b n q).mp hmem⟩
    · rintro ⟨b, hb, hrest⟩
      exact ⟨b, hb, (mem_mainScanDev cfg b n q).mpr hrest⟩
  · intro cfg lsusb blocks n q
    have hph2 : ((n, q) ∈ phase2 cfg blocks) ↔
        (∃ b ∈ blocks, b.devExists = true ∧
          strStartsWith ("/dev/" ++ b.name) "/dev/sd" = true ∧
          ∃ us, b.udev = some us ∧
            ∃ v p, (parseP2 us).vendor_id = some v ∧
              (parseP2 us).product_id = some p ∧ v ≠ "" ∧ p ≠ "" ∧
              q = "/dev/" ++ b.name ∧
              ∃ i, (n, i) ∈ cfg ∧ pyLower i.vendor_id = v ∧
                pyLower i.product_id = p) := by
      rw [mem_phase2]
      exact exists_congr fun b => and_congr_right fun hb =>
        mem_phase2Dev cfg b n q
    cases lsusb with
    | none =>
      rw [show find_matching_devices cfg none blocks = phase2 cfg blocks
        from rfl, hph2]
      simp
    | some ls =>
      have hph1 : ((n, q) ∈ phase1Lines cfg blocks ls) ↔
          (∃ line ∈ ls, ∃ v p, searchLsusbId line.data = some (v, p) ∧
            ((∃ i, (n, i) ∈ cfg ∧ pyLower i.vendor_id = pyLower v ∧
                pyLower i.product_id = pyLower p) ∧
              ∃ b ∈ blocks, strStartsWith b.name "sd" = true ∧
                q = "/dev/" ++ b.name ∧
                ∃ us, b.udev = some us ∧
                  ((anyLineContains us ("ID_VENDOR_ID=" ++ pyLower v) = true ∨
                    anyLineContains us ("ID_USB_VENDOR_ID=" ++ pyLower v) = true) ∧
                   (anyLineContains us ("ID_MODEL_ID=" ++ pyLower p) = true ∨
                    anyLineContains us ("ID_USB_MODEL_ID=" ++ pyLower p) = true)))) := by
        rw [mem_phase1Lines]
        refine exists_congr fun line => and_congr_right fun hline => ?_
        refine exists_congr fun v => exists_congr fun p => ?_
        refine and_congr_right fun hs => ?_
        rw [mem_phase1Cfg]
        refine and_congr_right fun hi => ?_
        rw [mem_phase1Blocks]
        refine exists_congr fun b => and_congr_right fun hb => ?_
        rw [mem_phase1Dev]
        simp
      rw [show find_matching_devices cfg (some ls) blocks =
        phase1Lines cfg blocks ls ++ phase2 cfg blocks from rfl,
        List.mem_append, hph1, hph2]
      simp

/-- C8: when two enumerated block devices carry the same parsed id pair and
one inventory entry matches that pair, the scan emits a separate
(nickname, blockPath) entry for each of the two block paths; nothing is
deduplicated. -/
theorem duplicate_id_pairs_both_matched (cfg : List (String × DeviceInfo))
    (blocks : List BlockDev) (b1 b2 : BlockDev) (n v p : String)
    (i : DeviceInfo) (us1 us2 : List String)
    (hb1 : b1 ∈ blocks) (hb2 : b2 ∈ blocks)
    (hsd1 : strStartsWith b1.name "sd" = true)
    (hsd2 : strStartsWith b2.name "sd" = true)
    (hu1 : b1.udev = some us1) (hu2 : b2.udev = some us2)
    (hv1 : (parseMain us1).vendor_id = some v)
    (hp1 : (parseMain us1).product_id = some p)
    (hv2 : (parseMain us2).vendor_id = some v)
    (hp2 : (parseMain us2).product_id = some p)
    (hvne : v ≠ "") (hpne : p ≠ "")
    (hi : (n, i) ∈ cfg) (hiv : pyLower i.vendor_id = v)
    (hip : pyLower i.product_id = p)
    (hne : b1.name ≠ b2.name) :
    ((n, "/dev/" ++ b1.name) ∈ mainScan cfg blocks ∧
     (n, "/dev/" ++ b2.name) ∈ mainScan cfg blocks ∧
     "/dev/" ++ b1.name ≠ "/dev/" ++ b2.name) := by
  refine ⟨?_, ?_, string_append_ne_of_ne _ _ _ hne⟩
  · exact (mem_mainScan cfg blocks n ("/dev/" ++ b1.name)).mpr
      ⟨b1, hb1, (mem_mainScanDev cfg b1 n ("/dev/" ++ b1.name)).mpr
        ⟨hsd1, us1, hu1, v, p, hv1, hp1, hvne, hpne, rfl, i, hi, hiv, hip⟩⟩
  · exact (mem_mainScan cfg blocks n ("/dev/" ++ b2.name)).mpr
      ⟨b2, hb2, (mem_mainScanDev cfg b2 n ("/dev/" ++ b2.name)).mpr
        ⟨hsd2, us2, hu2, v, p, hv2, hp2, hvne, hpne, rfl, i, hi, hiv, hip⟩⟩

/-- Witness for C8: two concrete sd block devices with the same ids both
appear in the scan result, on their distinct block paths. -/
theorem duplicate_id_pairs_both_matched_witness :
    (("corne", "/dev/" ++ exBlock.name) ∈ mainScan exCfg [exBlock, exBlock2] ∧
     ("corne", "/dev/" ++ exBlock2.name) ∈ mainScan exCfg [exBlock, exBlock2] ∧
     "/dev/" ++ exBlock.name ≠ "/dev/" ++ exBlock2.name) := by
  exact duplicate_id_pairs_both_matched exCfg [exBlock, exBlock2] exBlock exBlock2
    "corne" "1d50" "615e" ⟨"1D50", "615E"⟩ exLines exLines
    (by decide) (by decide) (by decide) (by decide) rfl rfl
    (by decide) (by decide) (by decide) (by decide)
    (by decide) (by decide) (by decide) (by decide) (by decide) (by decide)

/-- Helper: a device whose metadata query failed contributes nothing to the
per-device body of find_devices.py main. -/
theorem mainScanDev_udev_none (cfg : List (String × DeviceInfo)) (b : BlockDev)
    (h : b.udev = none) : mainScanDev cfg b = [] := by
  simp [mainScanDev, h]

/-- Helper: a device whose metadata query failed contributes nothing to the
direct block-device phase. -/
theorem phase2Dev_udev_none (cfg : List (String × DeviceInfo)) (b : BlockDev)
    (h : b.udev = none) : phase2Dev cfg b = [] := by
  simp [phase2Dev, h]

/-- Helper: the scan of find_devices.py main over all devices equals the scan
over the devices whose metadata query succeeded. -/
theorem mainScan_filter_isSome (cfg : List (String × DeviceInfo))
    (blocks : List BlockDev) :
    mainScan cfg blocks =
      mainScan cfg (blocks.filter (fun b => b.udev.isSome)) := by
  induction blocks with
  | nil => rfl
  | cons b bs ih =>
    by_cases h : b.udev.isSome = true
    · simp [mainScan, List.filter_cons, h, ih]
    · have hn : b.udev = none := Option.not_isSome_iff_eq_none.mp (by simpa using h)
      simp [mainScan, List.filter_cons, h, mainScanDev_udev_none cfg b hn, ih]

/-- Helper: the direct block-device phase over all devices equals the phase
over the devices whose metadata query succeeded. -/
theorem phase2_filter_isSome (cfg : List (String × DeviceInfo))
    (blocks : List BlockDev) :
    phase2 cfg blocks =
      phase2 cfg (blocks.filter (fun b => b.udev.isSome)) := by
  induction blocks with
  | nil => rfl
  | cons b bs ih =>
    by_cases h : b.udev.isSome = true
    · simp [phase2, List.filter_cons, h, ih]
    · have hn : b.udev = none := Option.not_isSome_iff_eq_none.mp (by simpa using h)
      simp [phase2, List.filter_cons, h, phase2Dev_udev_none cfg b hn, ih]

/-- Helper: the inner block-device loop of the lsusb phase over all devices
equals the loop over the devices whose metadata query succeeded. -/
theorem phase1Blocks_filter_isSome (n vid pid : String)
    (blocks : List BlockDev) :
    phase1Blocks n vid pid blocks =
      phase1Blocks n vid pid (blocks.filter (fun b => b.udev.isSome)) := by
  induction blocks with
  | nil => rfl
  | cons b bs ih =>
    by_cases h : b.udev.isSome = true
    · simp [phase1Blocks, List.filter_cons, h, ih]
    · have hn : b.udev = none := Option.not_isSome_iff_eq_none.mp (by simpa using h)
      simp [phase1Blocks, phase1Dev, List.filter_cons, h, hn, ih]

/-- Helper: the inventory loop of the lsusb phase is invariant under
restricting to the devices whose metadata query succeeded. -/
theorem phase1Cfg_filter_isSome (vid pid : String) (blocks : List BlockDev)
    (cfg : List (String × DeviceInfo)) :
    phase1Cfg vid pid blocks cfg =
      phase1Cfg vid pid (blocks.filter (fun b => b.udev.isSome)) cfg := by
  induction cfg with
  | nil => rfl
  | cons e tl ih =>
    obtain ⟨n0, i0⟩ := e
    simp only [phase1Cfg]
    rw [ih, phase1Blocks_filter_isSome]

/-- Helper: the line loop of the lsusb phase is invariant under restricting
to the devices whose metadata query succeeded. -/
theorem phase1Lines_filter_isSome (cfg : List (String × DeviceInfo))
    (blocks : List BlockDev) (ls : List String) :
    phase1Lines cfg blocks ls =
      phase1Lines cfg (blocks.filter (fun b => b.udev.isSome)) ls := by
  induction ls with
  | nil => rfl
  | cons l rest ih =>
    simp only [phase1Lines]
    cases hs : searchLsusbId l.data with
    | none => rw [ih]
    | some vp =>
      obtain ⟨v, p⟩ := vp
      show phase1Cfg (pyLower v) (pyLower p) blocks cfg ++ phase1Lines cfg blocks rest =
        phase1Cfg (pyLower v) (pyLower p) (blocks.filter (fun b => b.udev.isSome)) cfg ++
          phase1Lines cfg (blocks.filter (fun b => b.udev.isSome)) rest
      rw [ih, phase1Cfg_filter_isSome]

/-- C7: a per-device metadata-query failure only skips that device: both the
full find_matching_devices scan and the scan of the tool's entry point
compute exactly the matches of the devices whose queries succeeded, so no
per-device failure aborts or alters the rest of the scan. -/
theorem scan_skips_failed_metadata_queries (cfg : List (String × DeviceInfo))
    (lsusb : Option (List String)) (blocks : List BlockDev) :
    (find_matching_devices cfg lsusb blocks =
      find_matching_devices cfg lsusb (blocks.filter (fun b => b.udev.isSome))) ∧
    (mainScan cfg blocks =
      mainScan cfg (blocks.filter (fun b => b.udev.isSome))) := by
  refine ⟨?_, mainScan_filter_isSome cfg blocks⟩
  unfold find_matching_devices phase1
  cases lsusb with
  | none => rw [phase2_filter_isSome]
  | some ls =>
    show phase1Lines cfg blocks ls ++ phase2 cfg blocks =
      phase1Lines cfg (blocks.filter (fun b => b.udev.isSome)) ls ++
        phase2 cfg (blocks.filter (fun b => b.udev.isSome))
    rw [phase1Lines_filter_isSome, phase2_filter_isSome]

/-- Helper: the direct block-device phase emits nothing on an empty
inventory. -/
theorem phase2Dev_nil_cfg (b : BlockDev) : phase2Dev [] b = [] := by
  cases hu : b.udev with
  | none => simp [phase2Dev, hu]
  | some us =>
    cases hv : (parseP2 us).vendor_id with
    | none => simp [phase2Dev, hu, hv]
    | some v =>
      cases hp2 : (parseP2 us).product_id with
      | none => simp [phase2Dev, hu, hv, hp2]
      | some p => simp [phase2Dev, hu, hv, hp2, cfgMatchList]

/-- Helper: the scan of find_devices.py main emits nothing on an empty
inventory. -/
theorem mainScanDev_nil_cfg (b : BlockDev) : mainScanDev [] b = [] := by
  cases hu : b.udev with
  | none => simp [mainScanDev, hu]
  | some us =>
    cases hv : (parseMain us).vendor_id with
    | none => simp [mainScanDev, hu, hv]
    | some v =>
      cases hp2 : (parseMain us).product_id with
      | none => simp [mainScanDev, hu, hv, hp2]
      | some p => simp [mainScanDev, hu, hv, hp2, cfgMatchList]

/-- Helper: the line loop of the lsusb phase emits nothing on an empty
inventory. -/
theorem phase1Lines_nil_cfg (blocks : List BlockDev) (ls : List String) :
    phase1Lines [] blocks ls = [] := by
  induction ls with
  | nil => rfl
  | cons l rest ih =>
    simp only [phase1Lines]
    cases hs : searchLsusbId l.data with
    | none => simpa using ih
    | some vp =>
      obtain ⟨v, p⟩ := vp
      simpa [phase1Cfg] using ih

/-- Helper: the inventory loop of the lsusb phase emits nothing when there
are no block devices. -/
theorem phase1Cfg_nil_blocks (vid pid : String)
    (cfg : List (String × DeviceInfo)) :
    phase1Cfg vid pid [] cfg = [] := by
  induction cfg with
  | nil => rfl
  | cons e tl ih =>
    obtain ⟨n0, i0⟩ := e
    simp [phase1Cfg, phase1Blocks, ih]

/-- Helper: the line loop of the lsusb phase emits nothing when there are no
block devices. -/
theorem phase1Lines_nil_blocks (cfg : List (String × DeviceInfo))
    (ls : List String) : phase1Lines cfg [] ls = [] := by
  induction ls with
  | nil => rfl
  | cons l rest ih =>
    simp only [phase1Lines]
    cases hs : searchLsusbId l.data with
    | none => simpa using ih
    | some vp =>
      obtain ⟨v, p⟩ := vp
      simpa [phase1Cfg_nil_blocks] using ih

/-- C9: matching against an empty inventory returns the empty match list for
every lsusb outcome and every descriptor set, and a scan that discovers no
block devices returns the empty match list for every inventory; neither case
is an error, both are the ordinary empty result. -/
theorem empty_inventory_or_no_devices_empty_matches :
    (∀ (lsusb : Option (List String)) (blocks : List BlockDev),
      find_matching_devices [] lsusb blocks = []) ∧
    (∀ (cfg : List (String × DeviceInfo)) (lsusb : Option (List String)),
      find_matching_devices cfg lsusb [] = []) := by
  constructor
  · intro lsusb blocks
    unfold find_matching_devices phase1
    have h2 : phase2 [] blocks = [] := by
      induction blocks with
      | nil => rfl
      | cons b bs ih => simp [phase2, phase2Dev_nil_cfg, ih]
    cases lsusb with
    | none => simpa using h2
    | some ls => simp [phase1Lines_nil_cfg, h2]
  · intro cfg lsusb
    unfold find_matching_devices phase1
    cases lsusb with
    | none => simp [phase2]
    | some ls => simp [phase1Lines_nil_blocks, phase2]
